import Mathlib

/-!
Verification of the CIL typechecker of `cilly/src/v2/typecheck.rs`.

The data model (types, nodes, roots, the assembly's class tables) is embedded
shallowly; the checker functions `BinOp::typecheck`, `CILNode::typecheck`,
`CILRoot::typecheck` and the diagnostic renderer `display_node` are translated
arm by arm from the source. Interned handles are replaced by the interned
values themselves: interning is content addressed, so handle equality is
structural equality, and `asm[h]` is the identity.

`Type::is_assignable_to` is not part of the sources; the specification says
only that it is reflexive (`src == dst`) plus an unenumerated fixed set of
per-operation coercions. It is therefore modelled as an explicit parameter
`A : Ty → Ty → Bool` threaded through the checkers; concrete instantiations
used by witnesses are declared below.

Rust panics (unchecked slice indexing, explicit `panic!` arms) are modelled by
the distinguished outcome `panicked`, separate from the typed error results.
-/

namespace Cil

/-- The fixed-width integer kinds of the type algebra (`Int` in the source). -/
inductive Int where
  | i8 | i16 | i32 | i64 | i128 | isize
  | u8 | u16 | u32 | u64 | u128 | usize
deriving DecidableEq, Inhabited

/-- The float kinds of the type algebra (`Float` in the source). -/
inductive Float where
  | f32 | f64
deriving DecidableEq, Inhabited

/-- The value types (`Type` in the source). `fnPtr` carries the handle of
its interned signature (`FnPtr(Interned<FnSig>)`), resolved through the
assembly; `classRef` carries the nominal class identity as a handle.
Interning guarantees handle equality coincides with structural equality of
the interned values. -/
inductive Ty where
  | void
  | bool
  | int (i : Int)
  | float (f : Float)
  | ptr (t : Ty)
  | ref (t : Ty)
  | fnPtr (sig : Nat)
  | classRef (id : Nat)
  | platformArray (elem : Ty) (dims : Nat)
  | platformObject
  | platformString
  | platformGeneric (id : Nat)
deriving DecidableEq, Inhabited

/-- A function signature: ordered inputs plus one output (`FnSig`). -/
structure FnSig where
  inputs : List Ty
  output : Ty
deriving DecidableEq, Inhabited

/-- Signedness of an integer kind (`Int::is_signed`). -/
def Int.is_signed : Int → Bool
  | .i8 | .i16 | .i32 | .i64 | .i128 | .isize => true
  | _ => false

/-- Modelled from the spec: `Int::as_unsigned`, the signedness-normalized
width of an integer kind (each signed kind maps to its unsigned
counterpart). The function itself is not under `src/`. -/
def Int.as_unsigned : Int → Int
  | .i8 => .u8
  | .i16 => .u16
  | .i32 => .u32
  | .i64 => .u64
  | .i128 => .u128
  | .isize => .usize
  | x => x

/-- The right-operand width whitelist shared by the `Shl`, `Shr` and `ShrUn`
arms of `BinOp::typecheck` (the pattern `USize | ISize | I32 | U32 | I16 |
U16 | U8 | I8`). -/
def Int.shiftable : Int → Bool
  | .usize | .isize | .i32 | .u32 | .i16 | .u16 | .u8 | .i8 => true
  | _ => false

/-- The operand whitelist of the `DivUn` arm (`U64 | USize | U32 | U16 | U8`). -/
def Int.in_divun_set : Int → Bool
  | .u64 | .usize | .u32 | .u16 | .u8 => true
  | _ => false

/-- The operand whitelist of the `Div` arm
(`U64 | USize | ISize | I32 | U32 | I16 | U16 | U8 | I8`). -/
def Int.in_div_set : Int → Bool
  | .u64 | .usize | .isize | .i32 | .u32 | .i16 | .u16 | .u8 | .i8 => true
  | _ => false

/-- `Type::as_int`: partial projection to the integer kind. -/
def Ty.as_int : Ty → Option Int
  | .int i => some i
  | _ => none

/-- `Type::as_class_ref`: partial projection to the class handle. -/
def Ty.as_class_ref : Ty → Option Nat
  | .classRef c => some c
  | _ => none

/-- `Type::pointed_to`: defined for `Ptr` and `Ref`, undefined otherwise. -/
def Ty.pointed_to : Ty → Option Ty
  | .ptr t | .ref t => some t
  | _ => none

/-- Modelled from the spec: `Type::try_deref` (not under `src/`) — one level
of pointer or reference indirection, used by the direct-call secondary
argument rule ("dereference-equal"). -/
def Ty.try_deref : Ty → Option Ty
  | .ptr t | .ref t => some t
  | _ => none

/-- Is this type a function pointer? -/
def Ty.isFnPtr : Ty → Bool
  | .fnPtr _ => true
  | _ => false

/-- A class definition: its field list as (type, name handle, offset)
triples, as matched by the field-presence checks. -/
structure ClassDefM where
  fields : List (Ty × Nat × Nat)

/-- The interning store as seen by the checker: class-reference metadata
(value-type tag, optional definition), the signature table resolving
interned signature handles, plus the two well-known platform classes the
checker interns (`ClassRef::exception`, `ClassRef::runtime_type_hadle`). -/
structure Assembly where
  isValuetype : Nat → Bool
  classDef : Nat → Option ClassDefM
  sigOf : Nat → FnSig
  exceptionClass : Nat
  runtimeTypeHandle : Nat

/-- Modelled from the spec: `Type::is_gcref` (not under `src/`) — whether the
type is a garbage-collected / managed reference type (managed references,
platform arrays and objects, reference-type class instances). Only the
unclaimed `PtrCast` arm consumes it. -/
def Ty.is_gcref (asm : Assembly) : Ty → Bool
  | .ref _ => true
  | .platformArray _ _ => true
  | .platformObject | .platformString | .platformGeneric _ => true
  | .classRef c => !asm.isValuetype c
  | _ => false

/-- A field descriptor (`FieldDesc`): owner class handle, name handle,
declared type. -/
structure FieldDesc where
  owner : Nat
  name : Nat
  tpe : Ty
deriving DecidableEq

/-- A static field descriptor (`StaticFieldDesc`). -/
structure StaticFieldDesc where
  owner : Nat
  name : Nat
  tpe : Ty
deriving DecidableEq

/-- Call kinds of a method reference (`MethodKind`). -/
inductive MethodKind where
  | static
  | instanceMethod
  | virtualMethod
  | constructorMethod
deriving DecidableEq

/-- Modelled from the spec: a method reference (`MethodRef`, not under
`src/`) — owner-independent data the checker consumes: name handle, interned
signature handle, the stack input types used by the node-level call check
(for static methods these are the signature inputs; instance kinds prepend
the receiver), and the call kind. -/
structure MethodRef where
  name : Nat
  sig : Nat
  stackInputs : List Ty
  kind : MethodKind
deriving DecidableEq

/-- `MethodRef::output`: the declared output of the callee's signature. -/
def MethodRef.output (m : MethodRef) (asm : Assembly) : Ty :=
  (asm.sigOf m.sig).output

/-- Modelled from the spec: `PtrCastRes` (not under `src/`) — the declared
result type of a pointer cast, as returned by `PtrCastRes::as_type`. -/
structure PtrCastRes where
  as_type : Ty
deriving DecidableEq

/-- The binary operators (`BinOp`). -/
inductive BinOp where
  | Add | Sub | Mul | Eq
  | LtUn | GtUn | Lt | Gt
  | Or | XOr | And
  | Rem | RemUn
  | Shl | Shr | ShrUn
  | DivUn | Div
deriving DecidableEq, Inhabited

/-- The unary operators matched by the checker (`UnOp`). -/
inductive UnOp where
  | Not | Neg
deriving DecidableEq

/-- The typed failures of the checker (`TypeCheckError`). Where the source
stores a `mangle`d display string of a type, the model stores the type
itself (`mangle` is injective display, used only in error payloads). -/
inductive TypeCheckError where
  | WrongBinopArgs (lhs rhs : Ty) (op : BinOp)
  | RefToPtrArgNotRef (arg : Ty)
  | InvalidPtrCast (expected : PtrCastRes) (got : Ty)
  | TypeNotPtr (tpe : Ty)
  | DerfWrongPtr (expected got : Ty)
  | CallArgcWrong (expected got : Nat) (mname : Nat)
  | CallArgTypeWrong (got expected : Ty) (idx : Nat) (mname : Nat)
  | IntCastInvalidInput (got : Ty) (target : Int)
  | FieldAccessInvalidType (tpe : Ty) (field : FieldDesc)
  | FieldOwnerMismatch (owner expected_owner : Nat) (field : FieldDesc)
  | ExpectedClassGotValuetype (cref : Nat)
  | TypeNotClass (object : Ty)
  | FloatCastInvalidInput (got : Ty) (target : Float)
  | WrongUnOpArgs (tpe : Ty) (op : UnOp)
  | IndirectCallArgcWrong (expected got : Nat)
  | IndirectCallArgTypeWrong (got expected : Ty) (idx : Nat)
  | LdLenArgNotArray (got : Ty)
  | LdLenArrNot1D (got : Ty)
  | ArrIndexInvalidType (index_tpe : Ty)
  | IndirectCallInvalidFnPtrType (fn_ptr : Ty)
  | IndirectCallInvalidFnPtrSig (expected got : FnSig)
  | SizeOfVoid
  | LocalAssigementWrong (loc : Nat) (got expected : Ty)
  | ValueTypeCompare (lhs rhs : Ty)
  | WriteWrongAddr (addr tpe : Ty)
  | WriteWrongValue (tpe value : Ty)
  | ConditionNotBool (cond : Ty)
  | CantCompareTypes (lhs rhs : Ty)
  | FieldAssignWrongType (field_tpe : Ty) (fld : FieldDesc) (val : Ty)
  | FieldNotPresent (tpe : Ty) (name : Nat) (owner : Nat)
  | VoidPointerOp (op : BinOp)
  | ManagedPtrCast (src dst : Ty)
deriving DecidableEq

/-- Outcome of typechecking a node: a result type, a typed failure, or a
Rust panic (unwinding), kept apart from the typed failures. -/
inductive TCOut where
  | ok (t : Ty)
  | error (e : TypeCheckError)
  | panicked
deriving DecidableEq, Inhabited

/-- Propagate failure and panic, continue on a result type (the `?`
operator of the source). -/
def TCOut.bind : TCOut → (Ty → TCOut) → TCOut
  | .ok t, f => f t
  | .error e, _ => .error e
  | .panicked, _ => .panicked

/-- Outcome of typechecking a root (no result value on success). -/
inductive RootOut where
  | ok
  | error (e : TypeCheckError)
  | panicked
deriving DecidableEq, Inhabited

/-- The `Add`/`Sub` arm of `BinOp::typecheck`. Guarded Rust match arms are
rendered as `if` tests whose `else` is the arm the guard failure falls
through to (always the trailing fallback, since the guarded patterns are
shape-disjoint from all later patterns); `op` is `Add` or `Sub`, used only
in error payloads. -/
def add_sub_tc (op : BinOp) (lhs rhs : Ty) (A : Ty → Ty → Bool)
    (_asm : Assembly) : TCOut :=
  match lhs, rhs with
  | .int l, .int r =>
    if r == l then .ok (.int l)
    else if A lhs rhs && (lhs.as_int.isSome || rhs.as_int.isSome) then
      .ok (.int ((lhs.as_int.or rhs.as_int).get!))
    else .error (.WrongBinopArgs lhs rhs op)
  | .float l, .float r =>
    if r == l then .ok (.float l)
    else if A lhs rhs && (lhs.as_int.isSome || rhs.as_int.isSome) then
      .ok (.int ((lhs.as_int.or rhs.as_int).get!))
    else .error (.WrongBinopArgs lhs rhs op)
  | .ptr l, .ptr r =>
    if r == l then .ok (.ptr l)
    else if A lhs rhs && (lhs.as_int.isSome || rhs.as_int.isSome) then
      .ok (.int ((lhs.as_int.or rhs.as_int).get!))
    else .error (.WrongBinopArgs lhs rhs op)
  | .fnPtr ls, .fnPtr rs =>
    if rs == ls then .ok (.fnPtr ls)
    else if A lhs rhs && (lhs.as_int.isSome || rhs.as_int.isSome) then
      .ok (.int ((lhs.as_int.or rhs.as_int).get!))
    else .error (.WrongBinopArgs lhs rhs op)
  | .ptr p, .int i =>
    if i == .isize || i == .usize then .ok (.ptr p)
    else if A lhs rhs && (lhs.as_int.isSome || rhs.as_int.isSome) then
      .ok (.int ((lhs.as_int.or rhs.as_int).get!))
    else .error (.WrongBinopArgs lhs rhs op)
  | .fnPtr fs, .int i =>
    if i == .isize || i == .usize then .ok (.fnPtr fs)
    else if A lhs rhs && (lhs.as_int.isSome || rhs.as_int.isSome) then
      .ok (.int ((lhs.as_int.or rhs.as_int).get!))
    else .error (.WrongBinopArgs lhs rhs op)
  | .int l, .ptr p =>
    if l == .isize || l == .usize then .ok (.ptr p)
    else if A lhs rhs && (lhs.as_int.isSome || rhs.as_int.isSome) then
      .ok (.int ((lhs.as_int.or rhs.as_int).get!))
    else .error (.WrongBinopArgs lhs rhs op)
  | .int l, .fnPtr fs =>
    if l == .isize || l == .usize then .ok (.fnPtr fs)
    else if A lhs rhs && (lhs.as_int.isSome || rhs.as_int.isSome) then
      .ok (.int ((lhs.as_int.or rhs.as_int).get!))
    else .error (.WrongBinopArgs lhs rhs op)
  | .ref t, .int i =>
    if i == .isize || i == .usize then .ok (.ref t)
    else if A lhs rhs && (lhs.as_int.isSome || rhs.as_int.isSome) then
      .ok (.int ((lhs.as_int.or rhs.as_int).get!))
    else .error (.WrongBinopArgs lhs rhs op)
  | _, _ =>
    if A lhs rhs && (lhs.as_int.isSome || rhs.as_int.isSome) then
      .ok (.int ((lhs.as_int.or rhs.as_int).get!))
    else .error (.WrongBinopArgs lhs rhs op)

/-- The `Eq` arm of `BinOp::typecheck`. -/
def eq_tc (op : BinOp) (lhs rhs : Ty) (A : Ty → Ty → Bool)
    (asm : Assembly) : TCOut :=
  if lhs == rhs || A lhs rhs then
    match lhs with
    | .classRef cref =>
      if asm.isValuetype cref then .error (.ValueTypeCompare lhs rhs)
      else .ok .bool
    | _ => .ok .bool
  else .error (.WrongBinopArgs lhs rhs op)

/-- The `Mul` arm of `BinOp::typecheck`. -/
def mul_tc (op : BinOp) (lhs rhs : Ty) (A : Ty → Ty → Bool)
    (_asm : Assembly) : TCOut :=
  match lhs, rhs with
  | .int l, .int r =>
    if r == l then .ok (.int l)
    else if l == .isize && r == .i32 then .ok (.int .isize)
    else if l == .usize && r == .i32 then .ok (.int .usize)
    else if A lhs rhs then .ok rhs
    else if A rhs lhs then .ok lhs
    else .error (.WrongBinopArgs lhs rhs op)
  | .float l, .float r =>
    if r == l then .ok (.float l)
    else if A lhs rhs then .ok rhs
    else if A rhs lhs then .ok lhs
    else .error (.WrongBinopArgs lhs rhs op)
  | .int l, .ptr p =>
    if l == .isize || l == .usize then .ok (.ptr p)
    else if A lhs rhs then .ok rhs
    else if A rhs lhs then .ok lhs
    else .error (.WrongBinopArgs lhs rhs op)
  | .int l, .fnPtr fs =>
    if l == .isize || l == .usize then .ok (.fnPtr fs)
    else if A lhs rhs then .ok rhs
    else if A rhs lhs then .ok lhs
    else .error (.WrongBinopArgs lhs rhs op)
  | _, _ =>
    if A lhs rhs then .ok rhs
    else if A rhs lhs then .ok lhs
    else .error (.WrongBinopArgs lhs rhs op)

/-- The `LtUn`/`GtUn` arm of `BinOp::typecheck`. -/
def ltun_gtun_tc (op : BinOp) (lhs rhs : Ty) (A : Ty → Ty → Bool)
    (_asm : Assembly) : TCOut :=
  match lhs, rhs with
  | .int l, .int r =>
    if r == l then .ok .bool
    else if lhs == rhs || A lhs rhs then .ok .bool
    else .error (.WrongBinopArgs lhs rhs op)
  | .float l, .float r =>
    if r == l then .ok .bool
    else if lhs == rhs || A lhs rhs then .ok .bool
    else .error (.WrongBinopArgs lhs rhs op)
  | .ptr l, .ptr r =>
    if r == l then .ok .bool
    else if lhs == rhs || A lhs rhs then .ok .bool
    else .error (.WrongBinopArgs lhs rhs op)
  | .fnPtr ls, .fnPtr rs =>
    if rs == ls then .ok .bool
    else if lhs == rhs || A lhs rhs then .ok .bool
    else .error (.WrongBinopArgs lhs rhs op)
  | .bool, .bool => .ok .bool
  | _, _ =>
    if lhs == rhs || A lhs rhs then .ok .bool
    else .error (.WrongBinopArgs lhs rhs op)

/-- The `Lt`/`Gt` arm of `BinOp::typecheck` (no pointer or function-pointer
primary pairs, unlike `LtUn`/`GtUn`). -/
def lt_gt_tc (op : BinOp) (lhs rhs : Ty) (A : Ty → Ty → Bool)
    (_asm : Assembly) : TCOut :=
  match lhs, rhs with
  | .int l, .int r =>
    if r == l then .ok .bool
    else if lhs == rhs || A lhs rhs then .ok .bool
    else .error (.WrongBinopArgs lhs rhs op)
  | .float l, .float r =>
    if r == l then .ok .bool
    else if lhs == rhs || A lhs rhs then .ok .bool
    else .error (.WrongBinopArgs lhs rhs op)
  | .bool, .bool => .ok .bool
  | _, _ =>
    if lhs == rhs || A lhs rhs then .ok .bool
    else .error (.WrongBinopArgs lhs rhs op)

/-- The `Or`/`XOr`/`And` arm of `BinOp::typecheck`. -/
def or_xor_and_tc (op : BinOp) (lhs rhs : Ty) (A : Ty → Ty → Bool)
    (_asm : Assembly) : TCOut :=
  match lhs, rhs with
  | .int l, .int r =>
    if r == l then .ok (.int l)
    else if A lhs rhs && (lhs.as_int.isSome || rhs.as_int.isSome) then
      .ok (.int ((lhs.as_int.or rhs.as_int).get!))
    else .error (.WrongBinopArgs lhs rhs op)
  | .bool, .bool => .ok .bool
  | _, _ =>
    if A lhs rhs && (lhs.as_int.isSome || rhs.as_int.isSome) then
      .ok (.int ((lhs.as_int.or rhs.as_int).get!))
    else .error (.WrongBinopArgs lhs rhs op)

/-- The `Rem` arm of `BinOp::typecheck` (note the float/float primary pair
yields `Bool`, as in the source). -/
def rem_tc (op : BinOp) (lhs rhs : Ty) (A : Ty → Ty → Bool)
    (_asm : Assembly) : TCOut :=
  match lhs, rhs with
  | .int l, .int r =>
    if r == l && r.is_signed then .ok (.int l)
    else if A lhs rhs && (lhs.as_int.isSome || rhs.as_int.isSome) then
      .ok (.int ((lhs.as_int.or rhs.as_int).get!))
    else .error (.WrongBinopArgs lhs rhs op)
  | .float l, .float r =>
    if r == l then .ok .bool
    else if A lhs rhs && (lhs.as_int.isSome || rhs.as_int.isSome) then
      .ok (.int ((lhs.as_int.or rhs.as_int).get!))
    else .error (.WrongBinopArgs lhs rhs op)
  | _, _ =>
    if A lhs rhs && (lhs.as_int.isSome || rhs.as_int.isSome) then
      .ok (.int ((lhs.as_int.or rhs.as_int).get!))
    else .error (.WrongBinopArgs lhs rhs op)

/-- The `RemUn` arm of `BinOp::typecheck`. -/
def remun_tc (op : BinOp) (lhs rhs : Ty) (A : Ty → Ty → Bool)
    (_asm : Assembly) : TCOut :=
  match lhs, rhs with
  | .int l, .int r =>
    if r == l && !r.is_signed then .ok (.int l)
    else if A lhs rhs && (lhs.as_int.isSome || rhs.as_int.isSome) then
      .ok (.int ((lhs.as_int.or rhs.as_int).get!))
    else .error (.WrongBinopArgs lhs rhs op)
  | .float l, .float r =>
    if r == l then .ok .bool
    else if A lhs rhs && (lhs.as_int.isSome || rhs.as_int.isSome) then
      .ok (.int ((lhs.as_int.or rhs.as_int).get!))
    else .error (.WrongBinopArgs lhs rhs op)
  | _, _ =>
    if A lhs rhs && (lhs.as_int.isSome || rhs.as_int.isSome) then
      .ok (.int ((lhs.as_int.or rhs.as_int).get!))
    else .error (.WrongBinopArgs lhs rhs op)

/-- The `Shl` arm of `BinOp::typecheck`: any integer left operand, a
whitelisted right-operand width. -/
def shl_tc (op : BinOp) (lhs rhs : Ty) (A : Ty → Ty → Bool)
    (_asm : Assembly) : TCOut :=
  match lhs, rhs with
  | .int l, .int r =>
    if r.shiftable then .ok (.int l)
    else if A lhs rhs && (lhs.as_int.isSome || rhs.as_int.isSome) then
      .ok (.int ((lhs.as_int.or rhs.as_int).get!))
    else .error (.WrongBinopArgs lhs rhs op)
  | _, _ =>
    if A lhs rhs && (lhs.as_int.isSome || rhs.as_int.isSome) then
      .ok (.int ((lhs.as_int.or rhs.as_int).get!))
    else .error (.WrongBinopArgs lhs rhs op)

/-- The `Shr` arm of `BinOp::typecheck`: additionally requires a signed
left operand. -/
def shr_tc (op : BinOp) (lhs rhs : Ty) (A : Ty → Ty → Bool)
    (_asm : Assembly) : TCOut :=
  match lhs, rhs with
  | .int l, .int r =>
    if r.shiftable && l.is_signed then .ok (.int l)
    else if A lhs rhs && (lhs.as_int.isSome || rhs.as_int.isSome) then
      .ok (.int ((lhs.as_int.or rhs.as_int).get!))
    else .error (.WrongBinopArgs lhs rhs op)
  | _, _ =>
    if A lhs rhs && (lhs.as_int.isSome || rhs.as_int.isSome) then
      .ok (.int ((lhs.as_int.or rhs.as_int).get!))
    else .error (.WrongBinopArgs lhs rhs op)

/-- The `ShrUn` arm of `BinOp::typecheck`: additionally requires an
unsigned left operand. -/
def shrun_tc (op : BinOp) (lhs rhs : Ty) (A : Ty → Ty → Bool)
    (_asm : Assembly) : TCOut :=
  match lhs, rhs with
  | .int l, .int r =>
    if r.shiftable && !l.is_signed then .ok (.int l)
    else if A lhs rhs && (lhs.as_int.isSome || rhs.as_int.isSome) then
      .ok (.int ((lhs.as_int.or rhs.as_int).get!))
    else .error (.WrongBinopArgs lhs rhs op)
  | _, _ =>
    if A lhs rhs && (lhs.as_int.isSome || rhs.as_int.isSome) then
      .ok (.int ((lhs.as_int.or rhs.as_int).get!))
    else .error (.WrongBinopArgs lhs rhs op)

/-- The `DivUn` arm of `BinOp::typecheck`. -/
def divun_tc (op : BinOp) (lhs rhs : Ty) (A : Ty → Ty → Bool)
    (_asm : Assembly) : TCOut :=
  match lhs, rhs with
  | .int l, .int r =>
    if l.in_divun_set && r.in_divun_set && l == r then .ok (.int l)
    else if A lhs rhs && (lhs.as_int.isSome || rhs.as_int.isSome) then
      .ok (.int ((lhs.as_int.or rhs.as_int).get!))
    else .error (.WrongBinopArgs lhs rhs op)
  | _, _ =>
    if A lhs rhs && (lhs.as_int.isSome || rhs.as_int.isSome) then
      .ok (.int ((lhs.as_int.or rhs.as_int).get!))
    else .error (.WrongBinopArgs lhs rhs op)

/-- The `Div` arm of `BinOp::typecheck`. -/
def div_tc (op : BinOp) (lhs rhs : Ty) (A : Ty → Ty → Bool)
    (_asm : Assembly) : TCOut :=
  match lhs, rhs with
  | .int l, .int r =>
    if l.in_div_set && r.in_div_set && l.is_signed && l == r then
      .ok (.int l)
    else if A lhs rhs && (lhs.as_int.isSome || rhs.as_int.isSome) then
      .ok (.int ((lhs.as_int.or rhs.as_int).get!))
    else .error (.WrongBinopArgs lhs rhs op)
  | .float l, .float r =>
    if r == l then .ok (.float l)
    else if A lhs rhs && (lhs.as_int.isSome || rhs.as_int.isSome) then
      .ok (.int ((lhs.as_int.or rhs.as_int).get!))
    else .error (.WrongBinopArgs lhs rhs op)
  | _, _ =>
    if A lhs rhs && (lhs.as_int.isSome || rhs.as_int.isSome) then
      .ok (.int ((lhs.as_int.or rhs.as_int).get!))
    else .error (.WrongBinopArgs lhs rhs op)

/-- `BinOp::typecheck`, dispatching on the operator to the per-arm
functions above (one helper per arm of the source's single `match`). -/
def BinOp.typecheck (op : BinOp) (lhs rhs : Ty) (A : Ty → Ty → Bool)
    (asm : Assembly) : TCOut :=
  match op with
  | .Add | .Sub => add_sub_tc op lhs rhs A asm
  | .Eq => eq_tc op lhs rhs A asm
  | .Mul => mul_tc op lhs rhs A asm
  | .LtUn | .GtUn => ltun_gtun_tc op lhs rhs A asm
  | .Lt | .Gt => lt_gt_tc op lhs rhs A asm
  | .Or | .XOr | .And => or_xor_and_tc op lhs rhs A asm
  | .Rem => rem_tc op lhs rhs A asm
  | .RemUn => remun_tc op lhs rhs A asm
  | .Shl => shl_tc op lhs rhs A asm
  | .Shr => shr_tc op lhs rhs A asm
  | .ShrUn => shrun_tc op lhs rhs A asm
  | .DivUn => divun_tc op lhs rhs A asm
  | .Div => div_tc op lhs rhs A asm

/-- The expression nodes (`CILNode`). Interned child handles are replaced by
the child nodes themselves (hash-consing makes structural equality and
handle equality coincide); the `Const` payload is modelled from the spec by
the constant's type, the only datum `Const::get_type` feeds the checker.
Source constructor names, including the source's spellings
`LocAllocAlgined` and `LdElelemRef`, are kept. -/
inductive CILNode where
  | Const (tpe : Ty)
  | BinOp (lhs rhs : CILNode) (op : Cil.BinOp)
  | UnOp (arg : CILNode) (op : Cil.UnOp)
  | LdLoc (loc : Nat)
  | LdLocA (loc : Nat)
  | LdArg (arg : Nat)
  | LdArgA (arg : Nat)
  | Call (mref : MethodRef) (args : List CILNode) (is_pure : Bool)
  | CallI (fn_ptr : CILNode) (called_sig : FnSig) (args : List CILNode)
  | IntCast (input : CILNode) (target : Int) (extend : Bool)
  | FloatCast (input : CILNode) (target : Float) (is_signed : Bool)
  | RefToPtr (arg : CILNode)
  | PtrCast (arg : CILNode) (res : PtrCastRes)
  | LdFieldAddress (addr : CILNode) (field : FieldDesc)
  | LdField (addr : CILNode) (field : FieldDesc)
  | LdInd (addr : CILNode) (tpe : Ty) (volatile : Bool)
  | SizeOf (tpe : Ty)
  | GetException
  | IsInst (obj : CILNode) (tpe : Ty)
  | CheckedCast (obj : CILNode) (cast_res : Ty)
  | LocAlloc (size : CILNode)
  | LdStaticField (sfld : StaticFieldDesc)
  | LdStaticFieldAddress (sfld : StaticFieldDesc)
  | LdFtn (mref : MethodRef)
  | LdTypeToken (tpe : Ty)
  | LdLen (arr : CILNode)
  | LocAllocAlgined (tpe : Ty) (align : Nat)
  | LdElelemRef (array index : CILNode)
  | UnboxAny (object : CILNode) (tpe : Ty)

mutual

/-- `CILNode::typecheck`, arm by arm from the source. The `sig` parameter is
the checked function's (resolved) signature, `locals` the declared local
slot types. Out-of-range slice indexing of `locals` / `sig.inputs()` and the
explicit `panic!` arm of `LdFieldAddress` yield the `panicked` outcome. -/
def CILNode.typecheck (node : CILNode) (sg : FnSig) (locals : List Ty)
    (A : Ty → Ty → Bool) (asm : Assembly) : TCOut :=
  match node with
  | .Const tpe => .ok tpe
  | .BinOp lhs rhs op =>
    (lhs.typecheck sg locals A asm).bind fun lt =>
    (rhs.typecheck sg locals A asm).bind fun rt =>
    op.typecheck lt rt A asm
  | .UnOp arg op =>
    (arg.typecheck sg locals A asm).bind fun argT =>
    match argT, op with
    | .int _, .Not | .float _, .Not | .ptr _, .Not => .ok argT
    | .int i, .Neg =>
      if i.is_signed then .ok argT else .error (.WrongUnOpArgs argT op)
    | .float _, .Neg | .ptr _, .Neg => .ok argT
    | _, _ => .error (.WrongUnOpArgs argT op)
  | .LdLoc loc =>
    match locals[loc]? with
    | some t => .ok t
    | none => .panicked
  | .LdLocA loc =>
    match locals[loc]? with
    | some t => .ok (.ref t)
    | none => .panicked
  | .LdArg arg =>
    match sg.inputs[arg]? with
    | some t => .ok t
    | none => .panicked
  | .LdArgA arg =>
    match sg.inputs[arg]? with
    | some t => .ok (.ref t)
    | none => .panicked
  | .Call mref args _is_pure =>
    let inputs := mref.stackInputs
    if args.length != inputs.length then
      .error (.CallArgcWrong inputs.length args.length mref.name)
    else
      match call_args_check args inputs 0 mref.name sg locals A asm with
      | .error e => .error e
      | .panicked => .panicked
      | .ok => .ok (mref.output asm)
  | .CallI fn_ptr called_sig args =>
    (fn_ptr.typecheck sg locals A asm).bind fun fnPtrT =>
    if args.length != called_sig.inputs.length then
      .error (.IndirectCallArgcWrong called_sig.inputs.length args.length)
    else
      match calli_args_check args called_sig.inputs 0 sg locals A asm with
      | .error e => .error e
      | .panicked => .panicked
      | .ok =>
        match fnPtrT with
        | .fnPtr ptrSig =>
          if asm.sigOf ptrSig != called_sig then
            .error (.IndirectCallInvalidFnPtrSig called_sig (asm.sigOf ptrSig))
          else .ok called_sig.output
        | _ => .error (.IndirectCallInvalidFnPtrType fnPtrT)
  | .IntCast input target _extend =>
    (input.typecheck sg locals A asm).bind fun inputT =>
    match inputT with
    | .float _ | .int _ | .ptr _ | .fnPtr _ | .bool => .ok (.int target)
    | _ => .error (.IntCastInvalidInput inputT target)
  | .FloatCast input target _is_signed =>
    (input.typecheck sg locals A asm).bind fun inputT =>
    match inputT with
    | .float _ | .int _ => .ok (.float target)
    | _ => .error (.FloatCastInvalidInput inputT target)
  | .RefToPtr refn =>
    (refn.typecheck sg locals A asm).bind fun tpe =>
    match tpe with
    | .ref inner | .ptr inner => .ok (.ptr inner)
    | _ => .error (.RefToPtrArgNotRef tpe)
  | .PtrCast arg res =>
    (arg.typecheck sg locals A asm).bind fun argT =>
    match (match argT with
           | .ptr inner | .ref inner =>
             if inner.is_gcref asm then
               some (TypeCheckError.ManagedPtrCast argT res.as_type)
             else none
           | .int .usize | .int .isize | .fnPtr _ => none
           | _ => some (TypeCheckError.InvalidPtrCast res argT)) with
    | some e => .error e
    | none =>
      if res.as_type.is_gcref asm then
        .error (.ManagedPtrCast argT res.as_type)
      else .ok res.as_type
  | .LdFieldAddress addr field =>
    (addr.typecheck sg locals A asm).bind fun addrT =>
    match (match addrT with
           | .ptr t | .ref t => some t
           | .classRef _ => some addrT
           | _ => none) with
    | none => .error (.TypeNotPtr addrT)
    | some pointedT =>
      match pointedT with
      | .classRef pointedOwner =>
        if pointedOwner != field.owner then
          .error (.FieldOwnerMismatch pointedOwner field.owner field)
        else
          let after_checks : TCOut :=
            match addrT with
            | .ref _ => .ok (.ref field.tpe)
            | .ptr _ => .ok (.ptr field.tpe)
            | _ => .panicked
          match asm.classDef field.owner with
          | some cdef =>
            if cdef.fields.any fun f => f.1 == field.tpe && f.2.1 == field.name then
              after_checks
            else .error (.FieldNotPresent field.tpe field.name field.owner)
          | none => after_checks
      | _ => .error (.FieldAccessInvalidType pointedT field)
  | .LdField addr field =>
    (addr.typecheck sg locals A asm).bind fun addrT =>
    match (match addrT with
           | .ptr t | .ref t => some t
           | .classRef _ => some addrT
           | _ => none) with
    | none => .error (.TypeNotPtr addrT)
    | some pointedT =>
      match pointedT with
      | .classRef pointedOwner =>
        if pointedOwner != field.owner then
          .error (.FieldOwnerMismatch pointedOwner field.owner field)
        else
          match asm.classDef field.owner with
          | some cdef =>
            if cdef.fields.any fun f => f.1 == field.tpe && f.2.1 == field.name then
              .ok field.tpe
            else .error (.FieldNotPresent field.tpe field.name field.owner)
          | none => .ok field.tpe
      | _ => .error (.FieldAccessInvalidType pointedT field)
  | .LdInd addr tpe _volatile =>
    (addr.typecheck sg locals A asm).bind fun addrT =>
    match addrT.pointed_to with
    | none => .error (.TypeNotPtr addrT)
    | some pointedT =>
      if !(A pointedT tpe) then .error (.DerfWrongPtr tpe pointedT)
      else .ok pointedT
  | .SizeOf tpe =>
    match tpe with
    | .void => .error .SizeOfVoid
    | _ => .ok (.int .i32)
  | .GetException => .ok (.classRef asm.exceptionClass)
  | .IsInst obj _tpe =>
    (obj.typecheck sg locals A asm).bind fun _ => .ok .bool
  | .CheckedCast obj cast_res =>
    (obj.typecheck sg locals A asm).bind fun _ => .ok cast_res
  | .LocAlloc size =>
    (size.typecheck sg locals A asm).bind fun _ => .ok (.ptr (.int .u8))
  | .LdStaticField sfld => .ok sfld.tpe
  | .LdStaticFieldAddress sfld => .ok (.ptr sfld.tpe)
  | .LdFtn mref => .ok (.fnPtr mref.sig)
  | .LdTypeToken _ => .ok (.classRef asm.runtimeTypeHandle)
  | .LdLen arr =>
    (arr.typecheck sg locals A asm).bind fun arrT =>
    match arrT with
    | .platformArray _ dims =>
      if dims != 1 then .error (.LdLenArrNot1D arrT) else .ok (.int .i32)
    | _ => .error (.LdLenArgNotArray arrT)
  | .LocAllocAlgined tpe _align => .ok (.ptr tpe)
  | .LdElelemRef array index =>
    (array.typecheck sg locals A asm).bind fun arrT =>
    (index.typecheck sg locals A asm).bind fun indexT =>
    match arrT with
    | .platformArray elem dims =>
      if dims != 1 then .error (.LdLenArrNot1D arrT)
      else
        match indexT with
        | .int .i32 | .int .u32 | .int .i64 | .int .usize | .int .isize =>
          .ok elem
        | _ => .error (.ArrIndexInvalidType indexT)
    | _ => .error (.LdLenArgNotArray arrT)
  | .UnboxAny object tpe =>
    (object.typecheck sg locals A asm).bind fun objT =>
    match objT with
    | .classRef cref =>
      if asm.isValuetype cref then .error (.ExpectedClassGotValuetype cref)
      else .ok tpe
    | .platformObject | .platformGeneric _ | .platformString => .ok tpe
    | _ => .error (.TypeNotClass objT)

/-- The argument loop of the `Call` arm: each argument must be assignable to
its input type, or dereference-equal to it; failure reports
`CallArgTypeWrong` at the failing index. The zip stops at the shorter list,
as `Iterator::zip` does. -/
def call_args_check (args : List CILNode) (inputs : List Ty) (idx : Nat)
    (mname : Nat) (sg : FnSig) (locals : List Ty) (A : Ty → Ty → Bool)
    (asm : Assembly) : RootOut :=
  match args, inputs with
  | arg :: rest, input :: irest =>
    match arg.typecheck sg locals A asm with
    | .error e => .error e
    | .panicked => .panicked
    | .ok argT =>
      if !(A argT input) &&
         !(match argT.try_deref with
           | some t => some t == input.try_deref
           | none => false) then
        .error (.CallArgTypeWrong argT input idx mname)
      else call_args_check rest irest (idx + 1) mname sg locals A asm
  | _, _ => .ok

/-- The argument loop of the `CallI` arm: assignability only, reporting
`IndirectCallArgTypeWrong` at the failing index. -/
def calli_args_check (args : List CILNode) (inputs : List Ty) (idx : Nat)
    (sg : FnSig) (locals : List Ty) (A : Ty → Ty → Bool) (asm : Assembly) :
    RootOut :=
  match args, inputs with
  | arg :: rest, input :: irest =>
    match arg.typecheck sg locals A asm with
    | .error e => .error e
    | .panicked => .panicked
    | .ok argT =>
      if !(A argT input) then
        .error (.IndirectCallArgTypeWrong argT input idx)
      else calli_args_check rest irest (idx + 1) sg locals A asm
  | _, _ => .ok

end

/-- The conditional-branch conditions (`BranchCond`); the relational forms
carry the source's comparison-kind flag. -/
inductive BranchCond where
  | True (cond : CILNode)
  | False (cond : CILNode)
  | Eq (lhs rhs : CILNode)
  | Ne (lhs rhs : CILNode)
  | Lt (lhs rhs : CILNode) (kind : Bool)
  | Gt (lhs rhs : CILNode) (kind : Bool)
  | Le (lhs rhs : CILNode) (kind : Bool)
  | Ge (lhs rhs : CILNode) (kind : Bool)

/-- The statement roots (`CILRoot`). The variants without a dedicated
typecheck arm form the source's `_` catch-all, whose behaviour factors only
through their operand node list; they are modelled from the spec as `Other`
carrying that list. -/
inductive CILRoot where
  | StLoc (loc : Nat) (node : CILNode)
  | Branch (target sub_target : Nat) (cond : Option BranchCond)
  | StInd (addr value : CILNode) (tpe : Ty) (volatile : Bool)
  | SetField (fld : FieldDesc) (addr value : CILNode)
  | Call (mref : MethodRef) (args : List CILNode) (is_pure : Bool)
  | Other (nodes : List CILNode)

/-- The argument loop of the root-level `Call` arm: assignability only
(no dereference-equal fallback), against the callee signature's inputs. -/
def root_call_args_check (args : List CILNode) (inputs : List Ty)
    (index : Nat) (mname : Nat) (sg : FnSig) (locals : List Ty)
    (A : Ty → Ty → Bool) (asm : Assembly) : RootOut :=
  match args, inputs with
  | arg :: rest, expected :: irest =>
    match arg.typecheck sg locals A asm with
    | .error e => .error e
    | .panicked => .panicked
    | .ok argT =>
      if !(A argT expected) then
        .error (.CallArgTypeWrong argT expected index mname)
      else root_call_args_check rest irest (index + 1) mname sg locals A asm
  | _, _ => .ok

/-- The catch-all loop: typecheck every operand node, propagating the first
failure. -/
def nodes_check (nodes : List CILNode) (sg : FnSig) (locals : List Ty)
    (A : Ty → Ty → Bool) (asm : Assembly) : RootOut :=
  match nodes with
  | [] => .ok
  | n :: rest =>
    match n.typecheck sg locals A asm with
    | .error e => .error e
    | .panicked => .panicked
    | .ok _ => nodes_check rest sg locals A asm

/-- `CILRoot::typecheck`, arm by arm from the source. -/
def CILRoot.typecheck (root : CILRoot) (sg : FnSig) (locals : List Ty)
    (A : Ty → Ty → Bool) (asm : Assembly) : RootOut :=
  match root with
  | .StLoc loc node =>
    match node.typecheck sg locals A asm with
    | .error e => .error e
    | .panicked => .panicked
    | .ok got =>
      match locals[loc]? with
      | none => .panicked
      | some expected =>
        if !(A got expected) then
          .error (.LocalAssigementWrong loc got expected)
        else .ok
  | .Branch _target _sub_target cond =>
    match cond with
    | none => .ok
    | some (.True c) | some (.False c) =>
      match c.typecheck sg locals A asm with
      | .error e => .error e
      | .panicked => .panicked
      | .ok condT =>
        match condT with
        | .bool => .ok
        | .int _ => .ok
        | _ => .error (.ConditionNotBool condT)
    | some (.Eq l r) | some (.Ne l r)
    | some (.Lt l r _) | some (.Gt l r _)
    | some (.Le l r _) | some (.Ge l r _) =>
      match l.typecheck sg locals A asm with
      | .error e => .error e
      | .panicked => .panicked
      | .ok lhsT =>
        match r.typecheck sg locals A asm with
        | .error e => .error e
        | .panicked => .panicked
        | .ok rhsT =>
          if A lhsT rhsT &&
             (match lhsT.as_class_ref with
              | none => true
              | some cref => !asm.isValuetype cref) then .ok
          else .error (.CantCompareTypes lhsT rhsT)
  | .StInd addr value tpe _volatile =>
    match addr.typecheck sg locals A asm with
    | .error e => .error e
    | .panicked => .panicked
    | .ok addrT =>
      match value.typecheck sg locals A asm with
      | .error e => .error e
      | .panicked => .panicked
      | .ok valueT =>
        match addrT.pointed_to with
        | none => .error (.WriteWrongAddr addrT tpe)
        | some addr_points_to =>
          if !(A tpe addr_points_to ||
               (match addr_points_to.as_int, tpe.as_int with
                | some a, some b => a.as_unsigned == b.as_unsigned
                | _, _ => false) ||
               (addr_points_to == .bool && tpe == .int .i8)) then
            .error (.WriteWrongAddr addrT tpe)
          else if !(A valueT tpe ||
               (match valueT.as_int, tpe.as_int with
                | some a, some b => a.as_unsigned == b.as_unsigned
                | _, _ => false) ||
               (valueT == .bool && tpe == .int .i8)) then
            .error (.WriteWrongValue tpe valueT)
          else .ok
  | .SetField fld addr value =>
    match addr.typecheck sg locals A asm with
    | .error e => .error e
    | .panicked => .panicked
    | .ok addrT =>
      match value.typecheck sg locals A asm with
      | .error e => .error e
      | .panicked => .panicked
      | .ok valT =>
        if !(A valT fld.tpe) then
          .error (.FieldAssignWrongType fld.tpe fld valT)
        else
          match addrT.pointed_to with
          | none => .error (.TypeNotPtr addrT)
          | some pointedT =>
            match pointedT with
            | .classRef pointedOwner =>
              if pointedOwner != fld.owner then
                .error (.FieldOwnerMismatch pointedOwner fld.owner fld)
              else
                match asm.classDef fld.owner with
                | some cdef =>
                  if cdef.fields.any fun f =>
                      f.1 == fld.tpe && f.2.1 == fld.name then .ok
                  else .error (.FieldNotPresent fld.tpe fld.name fld.owner)
                | none => .ok
            | _ => .error (.FieldAccessInvalidType pointedT fld)
  | .Call mref args _is_pure =>
    let call_sig := asm.sigOf mref.sig
    match mref.kind with
    | .static =>
      if call_sig.inputs.length != args.length then
        .error (.CallArgcWrong call_sig.inputs.length args.length mref.name)
      else root_call_args_check args call_sig.inputs 0 mref.name sg locals A asm
    | _ => root_call_args_check args call_sig.inputs 0 mref.name sg locals A asm
  | .Other nodes => nodes_check nodes sg locals A asm

mutual

/-- `display_node`: renders one node of the diagnostic graph. The model
abstracts the rendered text to the list of nodes whose definition line is
written, in emission order: the call writes the current node's definition
line, then recurses into its children (the source's `child_nodes()`, inlined
here per constructor in operand order, as the spec's data model lists them).
The visited set `set` is inserted into on entry (`set.insert(nodeidx)`), and
— exactly as in the source — never consulted afterwards. Returns the
emission list and the final set. -/
def display_node (n : CILNode) (set : List CILNode) :
    List CILNode × List CILNode :=
  let set1 := n :: set
  match n with
  | .BinOp l r _ =>
    let (e1, s1) := display_node l set1
    let (e2, s2) := display_node r s1
    (n :: (e1 ++ e2), s2)
  | .UnOp a _ =>
    let (e1, s1) := display_node a set1
    (n :: e1, s1)
  | .Call _ args _ =>
    let (e1, s1) := display_nodes args set1
    (n :: e1, s1)
  | .CallI f _ args =>
    let (e1, s1) := display_node f set1
    let (e2, s2) := display_nodes args s1
    (n :: (e1 ++ e2), s2)
  | .IntCast i _ _ =>
    let (e1, s1) := display_node i set1
    (n :: e1, s1)
  | .FloatCast i _ _ =>
    let (e1, s1) := display_node i set1
    (n :: e1, s1)
  | .RefToPtr a =>
    let (e1, s1) := display_node a set1
    (n :: e1, s1)
  | .PtrCast a _ =>
    let (e1, s1) := display_node a set1
    (n :: e1, s1)
  | .LdFieldAddress a _ =>
    let (e1, s1) := display_node a set1
    (n :: e1, s1)
  | .LdField a _ =>
    let (e1, s1) := display_node a set1
    (n :: e1, s1)
  | .LdInd a _ _ =>
    let (e1, s1) := display_node a set1
    (n :: e1, s1)
  | .IsInst o _ =>
    let (e1, s1) := display_node o set1
    (n :: e1, s1)
  | .CheckedCast o _ =>
    let (e1, s1) := display_node o set1
    (n :: e1, s1)
  | .LocAlloc s =>
    let (e1, s1) := display_node s set1
    (n :: e1, s1)
  | .LdLen a =>
    let (e1, s1) := display_node a set1
    (n :: e1, s1)
  | .LdElelemRef a i =>
    let (e1, s1) := display_node a set1
    let (e2, s2) := display_node i s1
    (n :: (e1 ++ e2), s2)
  | .UnboxAny o _ =>
    let (e1, s1) := display_node o set1
    (n :: e1, s1)
  | _ => ([n], set1)

/-- Sequential rendering of a node list with one shared visited set, as
`typecheck_err_to_string` maps `display_node` over `root.nodes()`. -/
def display_nodes (l : List CILNode) (set : List CILNode) :
    List CILNode × List CILNode :=
  match l with
  | [] => ([], set)
  | c :: cs =>
    let (e1, s1) := display_node c set
    let (e2, s2) := display_nodes cs s1
    (e1 ++ e2, s2)

end

/-- Modelled from the spec: `CILRoot::nodes` (not under `src/`) — the
statement's operand nodes, in order. -/
def CILRoot.nodes : CILRoot → List CILNode
  | .StLoc _ node => [node]
  | .Branch _ _ none => []
  | .Branch _ _ (some (.True c)) | .Branch _ _ (some (.False c)) => [c]
  | .Branch _ _ (some (.Eq l r)) | .Branch _ _ (some (.Ne l r))
  | .Branch _ _ (some (.Lt l r _)) | .Branch _ _ (some (.Gt l r _))
  | .Branch _ _ (some (.Le l r _)) | .Branch _ _ (some (.Ge l r _)) => [l, r]
  | .StInd addr value _ _ => [addr, value]
  | .SetField _ addr value => [addr, value]
  | .Call _ args _ => args
  | .Other ns => ns

/-- The definition lines emitted when `typecheck_err_to_string` renders a
statement: `display_node` mapped over the statement's nodes with one shared
visited set, emissions concatenated. -/
def typecheck_err_render_emits (root : CILRoot) : List CILNode :=
  (display_nodes root.nodes []).1

/-- Primary applicability of the `Add`/`Sub` arm: transcription of its
guarded match patterns. -/
def add_sub_primary (lhs rhs : Ty) : Bool :=
  match lhs, rhs with
  | .int l, .int r => r == l
  | .float l, .float r => r == l
  | .ptr l, .ptr r => r == l
  | .fnPtr ls, .fnPtr rs => rs == ls
  | .ptr _, .int i => i == .isize || i == .usize
  | .fnPtr _, .int i => i == .isize || i == .usize
  | .int l, .ptr _ => l == .isize || l == .usize
  | .int l, .fnPtr _ => l == .isize || l == .usize
  | .ref _, .int i => i == .isize || i == .usize
  | _, _ => false

/-- Primary applicability of the `Mul` arm. -/
def mul_primary (lhs rhs : Ty) : Bool :=
  match lhs, rhs with
  | .int l, .int r =>
    r == l || (l == .isize && r == .i32) || (l == .usize && r == .i32)
  | .float l, .float r => r == l
  | .int l, .ptr _ => l == .isize || l == .usize
  | .int l, .fnPtr _ => l == .isize || l == .usize
  | _, _ => false

/-- Primary applicability of the `Or`/`XOr`/`And` arm. -/
def or_xor_and_primary (lhs rhs : Ty) : Bool :=
  match lhs, rhs with
  | .int l, .int r => r == l
  | .bool, .bool => true
  | _, _ => false

/-- Primary applicability of the `Rem` arm. -/
def rem_primary (lhs rhs : Ty) : Bool :=
  match lhs, rhs with
  | .int l, .int r => r == l && r.is_signed
  | .float l, .float r => r == l
  | _, _ => false

/-- Primary applicability of the `RemUn` arm. -/
def remun_primary (lhs rhs : Ty) : Bool :=
  match lhs, rhs with
  | .int l, .int r => r == l && !r.is_signed
  | .float l, .float r => r == l
  | _, _ => false

/-- Primary applicability of the `Shl` arm. -/
def shl_primary (lhs rhs : Ty) : Bool :=
  match lhs, rhs with
  | .int _, .int r => r.shiftable
  | _, _ => false

/-- Primary applicability of the `Shr` arm. -/
def shr_primary (lhs rhs : Ty) : Bool :=
  match lhs, rhs with
  | .int l, .int r => r.shiftable && l.is_signed
  | _, _ => false

/-- Primary applicability of the `ShrUn` arm. -/
def shrun_primary (lhs rhs : Ty) : Bool :=
  match lhs, rhs with
  | .int l, .int r => r.shiftable && !l.is_signed
  | _, _ => false

/-- Primary applicability of the `DivUn` arm. -/
def divun_primary (lhs rhs : Ty) : Bool :=
  match lhs, rhs with
  | .int l, .int r => l.in_divun_set && r.in_divun_set && l == r
  | _, _ => false

/-- Primary applicability of the `Div` arm. -/
def div_primary (lhs rhs : Ty) : Bool :=
  match lhs, rhs with
  | .int l, .int r => l.in_div_set && r.in_div_set && l.is_signed && l == r
  | .float l, .float r => r == l
  | _, _ => false

/-- Does one of the operator's primary `(lhs, rhs)` rules apply, i.e. does
`BinOp::typecheck` resolve the pair before reaching the operator's trailing
fallback? Transcribed from the guarded match arms of each operator. For the
comparison operators (`Eq`, `Lt`, `Gt`, `LtUn`, `GtUn`), whose fallback is
the boolean one and which the shared-integer-fallback analysis below does
not cover, this is set to `false` and unused. -/
def BinOp.primaryApplies (op : BinOp) (lhs rhs : Ty) : Bool :=
  match op with
  | .Add | .Sub => add_sub_primary lhs rhs
  | .Mul => mul_primary lhs rhs
  | .Or | .XOr | .And => or_xor_and_primary lhs rhs
  | .Rem => rem_primary lhs rhs
  | .RemUn => remun_primary lhs rhs
  | .Shl => shl_primary lhs rhs
  | .Shr => shr_primary lhs rhs
  | .ShrUn => shrun_primary lhs rhs
  | .DivUn => divun_primary lhs rhs
  | .Div => div_primary lhs rhs
  | .Eq | .Lt | .Gt | .LtUn | .GtUn => false

/-- The fallback rule as the specification words it for `Add`: if the left
operand is assignable to the right and at least one operand is an integer
type, the result is that integer type; otherwise `WrongBinopArgs`. -/
def specIntFallback (A : Ty → Ty → Bool) (op : BinOp) (lhs rhs : Ty) :
    TCOut :=
  if A lhs rhs && (lhs.as_int.isSome || rhs.as_int.isSome) then
    .ok (.int ((lhs.as_int.or rhs.as_int).get!))
  else .error (.WrongBinopArgs lhs rhs op)

/-- The fallback rule the `Mul` arm actually implements: assignability in
either direction, no integer requirement, yielding the assigned-to type. -/
def specMulFallback (A : Ty → Ty → Bool) (lhs rhs : Ty) : TCOut :=
  if A lhs rhs then .ok rhs
  else if A rhs lhs then .ok lhs
  else .error (.WrongBinopArgs lhs rhs .Mul)

theorem add_sub_tc_fallback (A : Ty → Ty → Bool) (asm : Assembly)
    (op : BinOp) (lhs rhs : Ty) (hnp : add_sub_primary lhs rhs = false) :
    add_sub_tc op lhs rhs A asm = specIntFallback A op lhs rhs := by
  cases lhs <;> cases rhs <;>
    simp_all [add_sub_tc, add_sub_primary, specIntFallback]

theorem or_xor_and_tc_fallback (A : Ty → Ty → Bool) (asm : Assembly)
    (op : BinOp) (lhs rhs : Ty) (hnp : or_xor_and_primary lhs rhs = false) :
    or_xor_and_tc op lhs rhs A asm = specIntFallback A op lhs rhs := by
  cases lhs <;> cases rhs <;>
    simp_all [or_xor_and_tc, or_xor_and_primary, specIntFallback]

theorem rem_tc_fallback (A : Ty → Ty → Bool) (asm : Assembly)
    (op : BinOp) (lhs rhs : Ty) (hnp : rem_primary lhs rhs = false) :
    rem_tc op lhs rhs A asm = specIntFallback A op lhs rhs := by
  cases lhs <;> cases rhs <;>
    simp_all [rem_tc, rem_primary, specIntFallback]

theorem remun_tc_fallback (A : Ty → Ty → Bool) (asm : Assembly)
    (op : BinOp) (lhs rhs : Ty) (hnp : remun_primary lhs rhs = false) :
    remun_tc op lhs rhs A asm = specIntFallback A op lhs rhs := by
  cases lhs <;> cases rhs <;>
    simp_all [remun_tc, remun_primary, specIntFallback]

theorem shl_tc_fallback (A : Ty → Ty → Bool) (asm : Assembly)
    (op : BinOp) (lhs rhs : Ty) (hnp : shl_primary lhs rhs = false) :
    shl_tc op lhs rhs A asm = specIntFallback A op lhs rhs := by
  cases lhs <;> cases rhs <;>
    simp_all [shl_tc, shl_primary, specIntFallback]

theorem shr_tc_fallback (A : Ty → Ty → Bool) (asm : Assembly)
    (op : BinOp) (lhs rhs : Ty) (hnp : shr_primary lhs rhs = false) :
    shr_tc op lhs rhs A asm = specIntFallback A op lhs rhs := by
  cases lhs <;> cases rhs <;>
    simp_all [shr_tc, shr_primary, specIntFallback]

theorem shrun_tc_fallback (A : Ty → Ty → Bool) (asm : Assembly)
    (op : BinOp) (lhs rhs : Ty) (hnp : shrun_primary lhs rhs = false) :
    shrun_tc op lhs rhs A asm = specIntFallback A op lhs rhs := by
  cases lhs <;> cases rhs <;>
    simp_all [shrun_tc, shrun_primary, specIntFallback]

theorem divun_tc_fallback (A : Ty → Ty → Bool) (asm : Assembly)
    (op : BinOp) (lhs rhs : Ty) (hnp : divun_primary lhs rhs = false) :
    divun_tc op lhs rhs A asm = specIntFallback A op lhs rhs := by
  cases lhs <;> cases rhs <;>
    simp_all [divun_tc, divun_primary, specIntFallback]

theorem div_tc_fallback (A : Ty → Ty → Bool) (asm : Assembly)
    (op : BinOp) (lhs rhs : Ty) (hnp : div_primary lhs rhs = false) :
    div_tc op lhs rhs A asm = specIntFallback A op lhs rhs := by
  cases lhs <;> cases rhs <;>
    simp_all [div_tc, div_primary, specIntFallback]

theorem mul_tc_fallback (A : Ty → Ty → Bool) (asm : Assembly)
    (lhs rhs : Ty) (hnp : mul_primary lhs rhs = false) :
    mul_tc .Mul lhs rhs A asm = specMulFallback A lhs rhs := by
  cases lhs <;> cases rhs <;>
    simp_all [mul_tc, mul_primary, specMulFallback]
  all_goals
    rcases hnp with ⟨⟨h1, h2⟩, h3⟩
    rw [if_neg (by rintro ⟨ha, hb⟩; exact h2 ha hb),
        if_neg (by rintro ⟨ha, hb⟩; exact h3 ha hb)]

/-- The reflexive core of the spec-modelled assignability relation:
structural equality only (the specification guarantees reflexivity and
leaves the per-operation coercion set unenumerated). -/
def eqAssign : Ty → Ty → Bool := fun a b => a == b

/-- An assembly with no value-type classes and no class definitions. -/
def asm0 : Assembly :=
  { isValuetype := fun _ => false
    classDef := fun _ => none
    sigOf := fun _ => ⟨[], .void⟩
    exceptionClass := 0
    runtimeTypeHandle := 1 }

/-- An assembly in which every class is a value type. -/
def asmVT : Assembly :=
  { isValuetype := fun _ => true
    classDef := fun _ => none
    sigOf := fun _ => ⟨[], .void⟩
    exceptionClass := 0
    runtimeTypeHandle := 1 }

/-- The empty checked-function signature used by concrete instances. -/
def sig0 : FnSig := ⟨[], .void⟩

/-- Claim C1, counterexample: `Mul(Bool, Bool)` reaches Mul's fallback
(no primary rule applies), neither operand is an integer type, yet the
check succeeds with `Bool` instead of failing with `WrongBinopArgs` as the
claim's shared fallback demands. -/
theorem C1_counterexample :
    BinOp.typecheck .Mul .bool .bool eqAssign asm0 = .ok .bool ∧
    Ty.as_int .bool = none ∧
    BinOp.primaryApplies .Mul .bool .bool = false :=
  ⟨rfl, rfl, rfl⟩

/-- Claim C1 (amended): for `Add`, `Sub`, `Or`, `XOr`, `And`, `Rem`,
`RemUn`, `Shl`, `Shr`, `ShrUn`, `Div` and `DivUn`, whenever no primary rule
applies the fallback is the shared one: left operand assignable to the
right and at least one operand an integer type gives that integer type,
otherwise `WrongBinopArgs`. `Mul`'s fallback is different: it accepts
assignability in either direction with no integer requirement and yields
the assigned-to type. -/
theorem C1_amended (A : Ty → Ty → Bool) (asm : Assembly) (lhs rhs : Ty) :
    (∀ op : BinOp,
      op ∈ [BinOp.Add, .Sub, .Or, .XOr, .And, .Rem, .RemUn, .Shl, .Shr,
            .ShrUn, .Div, .DivUn] →
      op.primaryApplies lhs rhs = false →
      op.typecheck lhs rhs A asm = specIntFallback A op lhs rhs) ∧
    (BinOp.primaryApplies .Mul lhs rhs = false →
      BinOp.typecheck .Mul lhs rhs A asm = specMulFallback A lhs rhs) := by
  constructor
  · intro op hmem hnp
    fin_cases hmem <;>
      simp only [BinOp.typecheck, BinOp.primaryApplies] at hnp ⊢ <;>
      first
      | exact add_sub_tc_fallback A asm _ lhs rhs hnp
      | exact or_xor_and_tc_fallback A asm _ lhs rhs hnp
      | exact rem_tc_fallback A asm _ lhs rhs hnp
      | exact remun_tc_fallback A asm _ lhs rhs hnp
      | exact shl_tc_fallback A asm _ lhs rhs hnp
      | exact shr_tc_fallback A asm _ lhs rhs hnp
      | exact shrun_tc_fallback A asm _ lhs rhs hnp
      | exact divun_tc_fallback A asm _ lhs rhs hnp
      | exact div_tc_fallback A asm _ lhs rhs hnp
  · intro hnp
    simp only [BinOp.typecheck, BinOp.primaryApplies] at hnp ⊢
    exact mul_tc_fallback A asm lhs rhs hnp

/-- Claim C1, witness: the amended statement applied at `And(Ptr(Void),
Bool)` (shared fallback) and `Mul(Bool, Bool)` (Mul's fallback). -/
theorem C1_amended_witness :
    BinOp.typecheck .And (.ptr .void) .bool eqAssign asm0 =
      specIntFallback eqAssign .And (.ptr .void) .bool ∧
    BinOp.typecheck .Mul .bool .bool eqAssign asm0 =
      specMulFallback eqAssign .bool .bool :=
  ⟨(C1_amended eqAssign asm0 (.ptr .void) .bool).1 .And (by decide) (by decide),
   (C1_amended eqAssign asm0 .bool .bool).2 (by decide)⟩

/-- Claim C4, counterexample: a `Shl` with left operand `I32` and right
operand `I64` does not hit the primary shift rule (the whitelist excludes
the 64-bit widths), and under the reflexive core of assignability the check
fails with `WrongBinopArgs` instead of returning the left operand's type. -/
theorem C4_counterexample :
    BinOp.primaryApplies .Shl (.int .i32) (.int .i64) = false ∧
    BinOp.typecheck .Shl (.int .i32) (.int .i64) eqAssign asm0 =
      .error (.WrongBinopArgs (.int .i32) (.int .i64) .Shl) :=
  ⟨rfl, rfl⟩

/-- Claim C4 (amended): the shiftable right-operand whitelist is the 8-,
16- and 32-bit and pointer-sized widths — it excludes the 64-bit widths as
well as the 128-bit ones. For a whitelisted right operand the primary rule
applies for any integer left operand: `Shl` yields the left operand's type,
`Shr` does so when the left operand is signed, `ShrUn` when it is
unsigned. -/
theorem C4_amended (A : Ty → Ty → Bool) (asm : Assembly) (l r : Int)
    (h : r.shiftable = true) :
    BinOp.typecheck .Shl (.int l) (.int r) A asm = .ok (.int l) ∧
    (l.is_signed = true →
      BinOp.typecheck .Shr (.int l) (.int r) A asm = .ok (.int l)) ∧
    (l.is_signed = false →
      BinOp.typecheck .ShrUn (.int l) (.int r) A asm = .ok (.int l)) :=
  ⟨by simp [BinOp.typecheck, shl_tc, h],
   fun hs => by simp [BinOp.typecheck, shr_tc, h, hs],
   fun hs => by simp [BinOp.typecheck, shrun_tc, h, hs]⟩

/-- Claim C4, witness: the amended statement applied at `Shl(I32, U8)`,
`Shr(I32, U8)` and `ShrUn(U32, U8)`. -/
theorem C4_amended_witness :
    BinOp.typecheck .Shl (.int .i32) (.int .u8) eqAssign asm0 =
      .ok (.int .i32) ∧
    BinOp.typecheck .Shr (.int .i32) (.int .u8) eqAssign asm0 =
      .ok (.int .i32) ∧
    BinOp.typecheck .ShrUn (.int .u32) (.int .u8) eqAssign asm0 =
      .ok (.int .u32) :=
  ⟨(C4_amended eqAssign asm0 .i32 .u8 rfl).1,
   (C4_amended eqAssign asm0 .i32 .u8 rfl).2.1 rfl,
   (C4_amended eqAssign asm0 .u32 .u8 rfl).2.2 rfl⟩

/-- Claim C7: an `Eq` whose operands are class references to the same
value-type class fails with `ValueTypeCompare` and never yields a result
type, for every assignability relation and assembly. -/
theorem C7_eq_valuetype_compare (A : Ty → Ty → Bool) (asm : Assembly)
    (c : Nat) (h : asm.isValuetype c = true) :
    BinOp.typecheck .Eq (.classRef c) (.classRef c) A asm =
      .error (.ValueTypeCompare (.classRef c) (.classRef c)) := by
  simp [BinOp.typecheck, eq_tc, h]

/-- Claim C7, witness: the statement applied to class `0` of `asmVT`. -/
theorem C7_witness :
    BinOp.typecheck .Eq (.classRef 0) (.classRef 0) eqAssign asmVT =
      .error (.ValueTypeCompare (.classRef 0) (.classRef 0)) :=
  C7_eq_valuetype_compare eqAssign asmVT 0 rfl

/-- Claim C8: for every pointee type, adding a `USize` to a pointer — in
either operand order — succeeds with the pointer's own type. -/
theorem C8_ptr_usize_add (A : Ty → Ty → Bool) (asm : Assembly) (t : Ty) :
    BinOp.typecheck .Add (.ptr t) (.int .usize) A asm = .ok (.ptr t) ∧
    BinOp.typecheck .Add (.int .usize) (.ptr t) A asm = .ok (.ptr t) := by
  constructor <;> simp [BinOp.typecheck, add_sub_tc]

/-- An assembly whose class `5` is a known (defined) class owning exactly
one field, of type `I32`, named `10`. -/
def asmFld : Assembly :=
  { isValuetype := fun _ => false
    classDef := fun c => if c == 5 then some ⟨[(.int .i32, 10, 0)]⟩ else none
    sigOf := fun _ => ⟨[], .void⟩
    exceptionClass := 0
    runtimeTypeHandle := 1 }

/-- Claim C2: a load-field-address whose base typechecks directly to the
`ClassRef` of the field's owner — with the (type, name) pair present in the
owner's known class definition — reaches the arm's trailing
`panic!("impossible...")` instead of returning a derived type, while the
sibling load-field arm accepts exactly the same base and field. -/
theorem C2_ldfield_address_classref_panics :
    (CILNode.LdFieldAddress (.LdLoc 0) ⟨5, 10, .int .i32⟩).typecheck sig0
      [.classRef 5] eqAssign asmFld = .panicked ∧
    (CILNode.LdField (.LdLoc 0) ⟨5, 10, .int .i32⟩).typecheck sig0
      [.classRef 5] eqAssign asmFld = .ok (.int .i32) := by
  constructor <;> simp [CILNode.typecheck, TCOut.bind, asmFld]

/-- Claim C6, counterexample: an indirect call whose pointer operand has
type `Ptr(U8)` (not a function pointer) but whose argument list is shorter
than the supplied one-input signature fails with `IndirectCallArgcWrong`,
not with `IndirectCallInvalidFnPtrType` as the claim demands. -/
theorem C6_counterexample :
    (CILNode.CallI (.LocAlloc (.Const (.int .i32))) ⟨[.int .i32], .void⟩
        []).typecheck sig0 [] eqAssign asm0 =
      .error (.IndirectCallArgcWrong 1 0) ∧
    (CILNode.LocAlloc (.Const (.int .i32))).typecheck sig0 [] eqAssign
        asm0 = .ok (.ptr (.int .u8)) ∧
    Ty.isFnPtr (.ptr (.int .u8)) = false := by
  refine ⟨?_, ?_, rfl⟩ <;> simp [CILNode.typecheck, TCOut.bind]

/-- Claim C6 (amended): an indirect call whose pointer operand typechecks
to a non-function-pointer type fails with `IndirectCallInvalidFnPtrType`
provided the argument count matches the supplied signature and the
argument loop accepts the arguments; count and argument-type mismatches
are reported first. -/
theorem C6_amended (A : Ty → Ty → Bool) (sg : FnSig) (locals : List Ty)
    (asm : Assembly) (fn_ptr : CILNode) (called_sig : FnSig)
    (args : List CILNode) (t : Ty)
    (h1 : fn_ptr.typecheck sg locals A asm = .ok t)
    (h2 : t.isFnPtr = false)
    (h3 : args.length = called_sig.inputs.length)
    (h4 : calli_args_check args called_sig.inputs 0 sg locals A asm = .ok) :
    (CILNode.CallI fn_ptr called_sig args).typecheck sg locals A asm =
      .error (.IndirectCallInvalidFnPtrType t) := by
  simp only [CILNode.typecheck, h1, TCOut.bind, h3, h4, bne_self_eq_false,
    Bool.false_eq_true, if_false]
  cases t <;> simp_all [Ty.isFnPtr]

/-- Claim C6, witness: the amended statement applied to an indirect call
through a `LocAlloc` (of type `Ptr(U8)`) with the empty signature. -/
theorem C6_amended_witness :
    (CILNode.CallI (.LocAlloc (.Const (.int .i32))) sig0 []).typecheck sig0
      [] eqAssign asm0 =
      .error (.IndirectCallInvalidFnPtrType (.ptr (.int .u8))) :=
  C6_amended eqAssign sig0 [] asm0 _ sig0 [] _
    (by simp [CILNode.typecheck, TCOut.bind]) rfl rfl
    (by simp [calli_args_check])

/-- Claim C9, counterexample: the local- and argument-load arms index the
locals slice and the signature's inputs without a bounds check, so an
out-of-range slot or argument index panics instead of being handled. -/
theorem C9_counterexample :
    (CILNode.LdLoc 0).typecheck sig0 [] eqAssign asm0 = .panicked ∧
    (CILNode.LdLocA 0).typecheck sig0 [] eqAssign asm0 = .panicked ∧
    (CILNode.LdArg 0).typecheck sig0 [] eqAssign asm0 = .panicked ∧
    (CILNode.LdArgA 0).typecheck sig0 [] eqAssign asm0 = .panicked := by
  refine ⟨?_, ?_, ?_, ?_⟩ <;> simp [CILNode.typecheck, sig0]

/-- Claim C9 (amended): for in-range indices the four load arms return the
slot's declared type (wrapped in a managed reference for the address-of
variants); for an out-of-range slot or argument index the checker panics
(unchecked slice indexing), rather than returning a typed failure. -/
theorem C9_amended (A : Ty → Ty → Bool) (sg : FnSig) (locals : List Ty)
    (asm : Assembly) (i : Nat) :
    (∀ h : i < locals.length,
      (CILNode.LdLoc i).typecheck sg locals A asm = .ok locals[i] ∧
      (CILNode.LdLocA i).typecheck sg locals A asm = .ok (.ref locals[i])) ∧
    (∀ h : i < sg.inputs.length,
      (CILNode.LdArg i).typecheck sg locals A asm = .ok sg.inputs[i] ∧
      (CILNode.LdArgA i).typecheck sg locals A asm =
        .ok (.ref sg.inputs[i])) ∧
    (locals.length ≤ i →
      (CILNode.LdLoc i).typecheck sg locals A asm = .panicked ∧
      (CILNode.LdLocA i).typecheck sg locals A asm = .panicked) ∧
    (sg.inputs.length ≤ i →
      (CILNode.LdArg i).typecheck sg locals A asm = .panicked ∧
      (CILNode.LdArgA i).typecheck sg locals A asm = .panicked) := by
  refine ⟨fun h => ?_, fun h => ?_, fun h => ?_, fun h => ?_⟩ <;>
    constructor <;>
      simp [CILNode.typecheck, List.getElem?_eq_getElem,
        List.getElem?_eq_none, h]

/-- Claim C9, witness: the amended statement applied to a one-local frame,
in range at slot `0` and out of range at argument `0`. -/
theorem C9_amended_witness :
    (CILNode.LdLoc 0).typecheck sig0 [.bool] eqAssign asm0 = .ok .bool ∧
    (CILNode.LdLocA 0).typecheck sig0 [.bool] eqAssign asm0 =
      .ok (.ref .bool) ∧
    (CILNode.LdArg 0).typecheck sig0 [.bool] eqAssign asm0 = .panicked :=
  ⟨((C9_amended eqAssign sig0 [.bool] asm0 0).1 (by decide)).1,
   ((C9_amended eqAssign sig0 [.bool] asm0 0).1 (by decide)).2,
   ((C9_amended eqAssign sig0 [.bool] asm0 0).2.2.2 (by decide)).1⟩

/-- An admissible instance of the spec-modelled assignability: the
reflexive core extended by a single coercion, `I32` assignable to class
`3` (the specification allows each operation an unenumerated fixed set of
coercions beyond reflexivity). -/
def extAssign : Ty → Ty → Bool := fun a b =>
  a == b || (a == .int .i32 && b == .classRef 3)

/-- Claim C3, counterexample: a relational branch whose right operand is a
value-type class reference and whose left operand (`I32`, not a class
reference) is assignable to it typechecks successfully — the code consults
only the left operand's class — while the claim demands
`CantCompareTypes`. -/
theorem C3_counterexample :
    CILRoot.typecheck
      (.Branch 0 1 (some (.Eq (.Const (.int .i32)) (.LdLoc 0))))
      sig0 [.classRef 3] extAssign asmVT = .ok ∧
    asmVT.isValuetype 3 = true ∧
    Ty.as_class_ref (.int .i32) = none ∧
    extAssign (.int .i32) (.classRef 3) = true := by
  refine ⟨?_, rfl, rfl, rfl⟩
  simp [CILRoot.typecheck, CILNode.typecheck, extAssign, TCOut.bind,
    Ty.as_class_ref]

/-- Claim C3 (amended): the relational branch check examines only the
left operand: once both operands typecheck, the root succeeds when the
left operand's type is assignable to the right's and the left is not a
value-type class reference — in particular also when the right operand is
a value-type class reference — and fails with `CantCompareTypes` exactly
otherwise, i.e. when the left operand is not assignable to the right or
the left operand is a class reference to a value-type class. -/
theorem C3_amended (A : Ty → Ty → Bool) (sg : FnSig) (locals : List Ty)
    (asm : Assembly) (l r : CILNode) (t1 t2 : Nat) (lt rt : Ty)
    (cond : BranchCond)
    (hc : cond ∈ ([.Eq l r, .Ne l r, .Lt l r false, .Lt l r true,
      .Gt l r false, .Gt l r true, .Le l r false, .Le l r true,
      .Ge l r false, .Ge l r true] : List BranchCond))
    (hl : l.typecheck sg locals A asm = .ok lt)
    (hr : r.typecheck sg locals A asm = .ok rt) :
    (CILRoot.Branch t1 t2 (some cond)).typecheck sg locals A asm =
      (if A lt rt &&
          (match lt.as_class_ref with
           | none => true
           | some cref => !asm.isValuetype cref) then .ok
       else .error (.CantCompareTypes lt rt)) := by
  fin_cases hc <;> simp [CILRoot.typecheck, hl, hr]

/-- Claim C3, witness: the amended statement applied to an `Eq` branch over
one `Bool` local compared with itself (accepted), and over one local of a
value-type class compared with itself (rejected with `CantCompareTypes`). -/
theorem C3_amended_witness :
    (CILRoot.Branch 0 1 (some (.Eq (.LdLoc 0) (.LdLoc 0)))).typecheck sig0
      [.bool] eqAssign asm0 = .ok ∧
    (CILRoot.Branch 0 1 (some (.Eq (.LdLoc 0) (.LdLoc 0)))).typecheck sig0
      [.classRef 3] eqAssign asmVT =
      .error (.CantCompareTypes (.classRef 3) (.classRef 3)) := by
  constructor
  · have h := C3_amended eqAssign sig0 [.bool] asm0 (.LdLoc 0) (.LdLoc 0)
      0 1 .bool .bool (.Eq (.LdLoc 0) (.LdLoc 0)) (by simp)
      (by simp [CILNode.typecheck]) (by simp [CILNode.typecheck])
    simpa [eqAssign, Ty.as_class_ref] using h
  · have h := C3_amended eqAssign sig0 [.classRef 3] asmVT (.LdLoc 0)
      (.LdLoc 0) 0 1 (.classRef 3) (.classRef 3)
      (.Eq (.LdLoc 0) (.LdLoc 0)) (by simp)
      (by simp [CILNode.typecheck]) (by simp [CILNode.typecheck])
    simpa [eqAssign, Ty.as_class_ref, asmVT] using h

/-- The indirect-store address compatibility check (its first three-way
test): the declared type assignable to the dereferenced type, or both
integers of equal signedness-normalized width, or dereferenced `Bool` with
declared `I8`. -/
def spec_stind_addr_compat (A : Ty → Ty → Bool) (tpe addr_points_to : Ty) :
    Bool :=
  A tpe addr_points_to ||
  (match addr_points_to.as_int, tpe.as_int with
   | some a, some b => a.as_unsigned == b.as_unsigned
   | _, _ => false) ||
  (addr_points_to == .bool && tpe == .int .i8)

/-- The indirect-store value compatibility check the code implements: value
assignable to the declared type, or both integers of equal
signedness-normalized width, or value `Bool` with declared `I8` — the
`Bool` clause mirrors the address check's orientation instead of
substituting into it. -/
def spec_stind_value_compat (A : Ty → Ty → Bool) (value tpe : Ty) : Bool :=
  A value tpe ||
  (match value.as_int, tpe.as_int with
   | some a, some b => a.as_unsigned == b.as_unsigned
   | _, _ => false) ||
  (value == .bool && tpe == .int .i8)

/-- The value compatibility check as the claim words it: the address check
with (value, declared) substituted for (declared, dereferenced); its `Bool`
clause therefore requires declared `Bool` and value `I8`. -/
def claim_stind_value_compat (A : Ty → Ty → Bool) (value tpe : Ty) : Bool :=
  spec_stind_addr_compat A value tpe

/-- Claim C5, counterexample: storing a `Bool` value with declared type
`I8` through a `Ptr(I8)` succeeds (the code's value clause is "value is
`Bool` and declared is `I8`"), while the claim's substituted check —
which requires declared `Bool` and value `I8` — rejects this store. -/
theorem C5_counterexample :
    (CILRoot.StInd (.LdLoc 0) (.Const .bool) (.int .i8) false).typecheck
      sig0 [.ptr (.int .i8)] eqAssign asm0 = .ok ∧
    claim_stind_value_compat eqAssign .bool (.int .i8) = false ∧
    spec_stind_value_compat eqAssign .bool (.int .i8) = true := by
  refine ⟨?_, rfl, rfl⟩
  simp [CILRoot.typecheck, CILNode.typecheck, eqAssign, TCOut.bind,
    Ty.pointed_to, Ty.as_int, Int.as_unsigned]

/-- Claim C5 (amended): an indirect store requires the address to
dereference to some type (else `WriteWrongAddr`); the declared type must
pass the three-way check against the dereferenced type (else
`WriteWrongAddr`); the stored value must pass the three-way check against
the declared type whose `Bool` clause is "value is `Bool` and declared is
`I8`" (else `WriteWrongValue`). -/
theorem C5_amended (A : Ty → Ty → Bool) (sg : FnSig) (locals : List Ty)
    (asm : Assembly) (addr value : CILNode) (tpe : Ty) (vol : Bool)
    (addrT valueT : Ty)
    (h1 : addr.typecheck sg locals A asm = .ok addrT)
    (h2 : value.typecheck sg locals A asm = .ok valueT) :
    (addrT.pointed_to = none →
      (CILRoot.StInd addr value tpe vol).typecheck sg locals A asm =
        .error (.WriteWrongAddr addrT tpe)) ∧
    (∀ p, addrT.pointed_to = some p →
      (CILRoot.StInd addr value tpe vol).typecheck sg locals A asm =
        (if spec_stind_addr_compat A tpe p then
          (if spec_stind_value_compat A valueT tpe then .ok
           else .error (.WriteWrongValue tpe valueT))
         else .error (.WriteWrongAddr addrT tpe))) := by
  constructor
  · intro hp
    simp [CILRoot.typecheck, h1, h2, hp]
  · intro p hp
    simp only [CILRoot.typecheck, h1, h2, hp, spec_stind_addr_compat,
      spec_stind_value_compat]
    split_ifs <;> simp_all

/-- Claim C5, witness: the amended statement's dereferenceable case applied
to the store of the counterexample's shape. -/
theorem C5_amended_witness :
    (CILRoot.StInd (.LdLoc 0) (.Const .bool) (.int .i8) false).typecheck
      sig0 [.ptr (.int .i8)] eqAssign asm0 =
      (if spec_stind_addr_compat eqAssign (.int .i8) (.int .i8) then
        (if spec_stind_value_compat eqAssign .bool (.int .i8) then .ok
         else .error (.WriteWrongValue (.int .i8) .bool))
       else .error (.WriteWrongAddr (.ptr (.int .i8)) (.int .i8))) :=
  (C5_amended eqAssign sig0 [.ptr (.int .i8)] asm0 _ _ _ _ _ _
    (by simp [CILNode.typecheck]) (by simp [CILNode.typecheck])).2
    (.int .i8) rfl

/-- Claim C10: rendering a statement whose expression is `BinOp(n, n)` —
the interned node `n` reachable along two paths — writes `n`'s definition
line once per path: the visited set is inserted into but never consulted,
so the emission list contains `n` twice. -/
theorem C10_duplicate_emission :
    typecheck_err_render_emits
        (CILRoot.StLoc 0 (.BinOp (.Const .bool) (.Const .bool) .Add)) =
      [.BinOp (.Const .bool) (.Const .bool) .Add, .Const .bool,
       .Const .bool] := by
  simp [typecheck_err_render_emits, CILRoot.nodes, display_nodes,
    display_node]

end Cil
